import Mathlib

/-!
A verification development for the two podcast-studio Streamlit variants of
this repository: the recording variant (`1app.py`, embedded below as
namespace `RecApp`) and the Professional variant (`app.py`, namespace
`ProApp`).  Network and SDK effects are embedded by passing explicit
oracles (`net : Request → Response`, SDK call results as `Except` values);
Python dict/string truthiness is modelled explicitly where the source
relies on it.
-/

namespace RecApp

/-- Python truthiness of an optional string value (`if x:`): `None` and the
empty string are falsy, any other string is truthy. -/
def truthy : Option String → Bool
  | none => false
  | some s => s != ""

/-- Python's `str.lower()` (modelled character-wise; the source only ever
compares ASCII text). -/
def pyLower (s : String) : String := String.mk (s.data.map Char.toLower)

/-- HTTP method of a request issued through `requests`. -/
inductive HttpMethod
  | get
  | post
  deriving DecidableEq

/-- One entry of the parsed `files` field of a Drive API response
(the fields requested by `folder_exists` / `list_files`). -/
structure DriveFile where
  id : String
  name : String
  mimeType : String
  createdTime : String
  size : Option String
  deriving DecidableEq

/-- The body of an HTTP request issued by `GoogleDriveAPI`:
either no body, the JSON folder metadata of `create_folder`, or the
multipart body of `upload_file` (a JSON metadata part plus the raw
binary payload part). -/
inductive RequestBody
  | empty
  | folderMeta (name : String) (mimeType : String) (parents : List String)
  | multipart (metaName : String) (metaParents : List String)
      (fileName : String) (fileData : List Nat) (fileMime : String)
  deriving DecidableEq

/-- An HTTP request as issued by the `GoogleDriveAPI` methods of `1app.py`:
method, URL, the bearer token of the `Authorization` header, the query
parameters, and the body. -/
structure Request where
  method : HttpMethod
  url : String
  bearer : String
  params : List (String × String)
  body : RequestBody
  deriving DecidableEq

/-- An HTTP response, already parsed: the status code, the `files` field of
the JSON body (empty when absent), and the `id` field (for create/upload
responses). -/
structure Response where
  status : Nat
  files : List DriveFile
  id : String
  deriving DecidableEq

/-- The Drive metadata endpoint used by `create_folder`, `folder_exists`
and `list_files` (`1app.py` lines 122, 147, 193). -/
def driveFilesUrl : String := "https://www.googleapis.com/drive/v3/files"

/-- `GoogleDriveAPI.create_folder` (`1app.py` lines 117-140): with a falsy
access token it returns `None` without any request; otherwise it POSTs the
folder metadata (name, folder MIME type, plus the parent when truthy) to
the files endpoint once, returning the `id` field of a 200 response and
`None` on any other status.  The second component is the list of HTTP
requests issued. -/
def create_folder (access_token : Option String) (folder_name : String)
    (parent_id : Option String) (net : Request → Response) :
    Option String × List Request :=
  if !truthy access_token then (none, []) else
    let req : Request :=
      { method := .post
        url := driveFilesUrl
        bearer := access_token.getD ""
        params := []
        body := .folderMeta folder_name "application/vnd.google-apps.folder"
          (if truthy parent_id then [parent_id.getD ""] else []) }
    let response := net req
    (if response.status == 200 then some response.id else none, [req])

/-- The search query string built by `folder_exists` (`1app.py` lines
150-152). -/
def folderExistsQuery (folder_name : String) (parent_id : Option String) :
    String :=
  let q := "name='" ++ folder_name ++
    "' and mimeType='application/vnd.google-apps.folder' and trashed=false"
  if truthy parent_id then
    q ++ " and '" ++ parent_id.getD "" ++ "' in parents"
  else q

/-- `GoogleDriveAPI.folder_exists` (`1app.py` lines 142-161): with a falsy
access token it returns `None` without any request; otherwise it GETs the
files endpoint once with the search query, returning the id of the first
matching file of a 200 response (`None` when the list is empty) and `None`
on any other status. -/
def folder_exists (access_token : Option String) (folder_name : String)
    (parent_id : Option String) (net : Request → Response) :
    Option String × List Request :=
  if !truthy access_token then (none, []) else
    let req : Request :=
      { method := .get
        url := driveFilesUrl
        bearer := access_token.getD ""
        params := [("q", folderExistsQuery folder_name parent_id),
                   ("fields", "files(id, name)")]
        body := .empty }
    let response := net req
    (if response.status == 200 then (response.files.head?).map (·.id)
     else none, [req])

/-- `GoogleDriveAPI.upload_file` (`1app.py` lines 163-186): with a falsy
access token it returns `None` without any request; otherwise it POSTs one
multipart request (JSON metadata part: the file name plus the parent
folder when truthy; binary part: the file data with its MIME type) to the
`uploadType=multipart` endpoint, returning the `id` of a 200 response and
`None` on any other status. -/
def upload_file (access_token : Option String) (file_name : String)
    (file_data : List Nat) (mime_type : String) (folder_id : Option String)
    (net : Request → Response) : Option String × List Request :=
  if !truthy access_token then (none, []) else
    let req : Request :=
      { method := .post
        url := "https://www.googleapis.com/upload/drive/v3/files?uploadType=multipart"
        bearer := access_token.getD ""
        params := []
        body := .multipart file_name
          (if truthy folder_id then [folder_id.getD ""] else [])
          file_name file_data mime_type }
    let response := net req
    (if response.status == 200 then some response.id else none, [req])

/-- The search query string built by `list_files` (`1app.py` lines
196-198). -/
def listFilesQuery (folder_id : Option String) : String :=
  if truthy folder_id then
    "trashed=false and '" ++ folder_id.getD "" ++ "' in parents"
  else "trashed=false"

/-- `GoogleDriveAPI.list_files` (`1app.py` lines 188-210): with a falsy
access token it returns the empty list without any request; otherwise it
GETs the files endpoint once, returning the `files` field of a 200
response and the empty list on any other status.  No further page is ever
requested. -/
def list_files (access_token : Option String) (folder_id : Option String)
    (net : Request → Response) : List DriveFile × List Request :=
  if !truthy access_token then ([], []) else
    let req : Request :=
      { method := .get
        url := driveFilesUrl
        bearer := access_token.getD ""
        params := [("q", listFilesQuery folder_id),
                   ("fields", "files(id, name, mimeType, createdTime, size)"),
                   ("orderBy", "createdTime desc")]
        body := .empty }
    (if (net req).status == 200 then (net req).files else [], [req])

/-- A Google Cloud service account key, with the fields the sidebar of
`1app.py` validates before constructing `GoogleDriveAPI` (lines 277-278). -/
structure ServiceAccount where
  client_email : String
  private_key : String
  project_id : String
  deriving DecidableEq

/-- The JWT claim set built by `get_access_token` (`1app.py` lines 87-94). -/
structure JwtClaims where
  iss : String
  scope : String
  aud : String
  iat : Nat
  exp : Nat
  deriving DecidableEq

/-- The form-encoded POST to the OAuth2 token endpoint (`1app.py` lines
100-107). -/
structure TokenRequest where
  url : String
  grant_type : String
  assertion : String
  deriving DecidableEq

/-- A token-endpoint response, already parsed: status code and the
`access_token` field of the JSON body. -/
structure TokenResponse where
  status : Nat
  access_token : String
  deriving DecidableEq

/-- `GoogleDriveAPI.get_access_token` (`1app.py` lines 80-115).  `now` is
the clock reading (`int(time.time())`); `sign` is `jwt.encode(payload,
private_key, algorithm=RS256)` and `post` is `requests.post`, each
returning `Except` so that a raised exception (caught by the enclosing
`try`, which displays an error and returns `None`) is representable. -/
def get_access_token (svc : ServiceAccount) (now : Nat)
    (sign : JwtClaims → String → Except String String)
    (post : TokenRequest → Except String TokenResponse) : Option String :=
  let payload : JwtClaims :=
    { iss := svc.client_email
      scope := "https://www.googleapis.com/auth/drive.file"
      aud := "https://oauth2.googleapis.com/token"
      iat := now
      exp := now + 3600 }
  match sign payload svc.private_key with
  | .error _ => none
  | .ok encoded_jwt =>
    match post { url := "https://oauth2.googleapis.com/token"
                 grant_type := "urn:ietf:params:oauth:grant-type:jwt-bearer"
                 assertion := encoded_jwt } with
    | .error _ => none
    | .ok response =>
      if response.status == 200 then some response.access_token else none

/-- The OAuth2 service-account flow exactly as claim C3 states it: build
the claim set `iss = client_email`, `scope` = the drive.file scope,
`aud` = the token endpoint, `iat = now`, `exp = now + 3600`; sign it with
the service account's private key; POST it with the jwt-bearer grant type;
return the `access_token` field of a 200 response and `None` on any
non-200 response or exception. -/
def specServiceAccountToken (svc : ServiceAccount) (now : Nat)
    (sign : JwtClaims → String → Except String String)
    (post : TokenRequest → Except String TokenResponse) : Option String :=
  match sign
      { iss := svc.client_email
        scope := "https://www.googleapis.com/auth/drive.file"
        aud := "https://oauth2.googleapis.com/token"
        iat := now
        exp := now + 3600 } svc.private_key with
  | .error _ => none
  | .ok assertion =>
    match post { url := "https://oauth2.googleapis.com/token"
                 grant_type := "urn:ietf:params:oauth:grant-type:jwt-bearer"
                 assertion := assertion } with
    | .error _ => none
    | .ok r => if r.status == 200 then some r.access_token else none

/-- The folder structure stored in `st.session_state.folder_structure` by
`setup_podcast_folders` (`1app.py` lines 241-244): the (truthy) id of the
main folder under the key `main`, and the subfolder name/id pairs in loop
order (a subfolder's id may itself be `None` when both the existence check
and the creation failed). -/
structure FolderStructure where
  main : String
  sub : List (String × Option String)
  deriving DecidableEq

/-- The names of the four subfolders created by `setup_podcast_folders`
(`1app.py` line 229). -/
def podcastSubfolders : List String :=
  ["Audio Recordings", "Episode Notes", "Transcripts", "Drafts"]

/-- The body of the subfolder loop of `setup_podcast_folders` (`1app.py`
lines 231-239): check whether the subfolder exists under the main folder,
create it only when the check returned a falsy id, and record the
name/id pair; the accumulator carries the pairs and the request log. -/
def subfolderStep (tok : Option String) (net : Request → Response)
    (mid : String) (acc : List (String × Option String) × List Request)
    (folder_name : String) :
    List (String × Option String) × List Request :=
  let fe := folder_exists tok folder_name (some mid) net
  let ensured :=
    if truthy fe.1 then (fe.1, fe.2)
    else
      let cf := create_folder tok folder_name (some mid) net
      (cf.1, fe.2 ++ cf.2)
  (acc.1 ++ [(folder_name, ensured.1)], acc.2 ++ ensured.2)

/-- `setup_podcast_folders` (`1app.py` lines 212-250): check whether the
main `Podcast Studio` folder exists, create it only when the check
returned a falsy id, abort with `None` when the id is still falsy, then
run the subfolder loop and return the assembled folder structure together
with the log of all HTTP requests issued. -/
def setup_podcast_folders (tok : Option String) (net : Request → Response) :
    Option FolderStructure × List Request :=
  let fe := folder_exists tok "Podcast Studio" none net
  let main :=
    if truthy fe.1 then (fe.1, fe.2)
    else
      let cf := create_folder tok "Podcast Studio" none net
      (cf.1, fe.2 ++ cf.2)
  if truthy main.1 then
    let mid := main.1.getD ""
    let loop := podcastSubfolders.foldl (subfolderStep tok net mid) ([], [])
    (some { main := mid, sub := loop.1 }, main.2 ++ loop.2)
  else (none, main.2)

/-- Spec side of claim C1, the id produced by one check-folder-exists →
create-if-missing step: query whether the folder exists and create it only
when the query returned no (truthy) id. -/
def checkThenCreateId (tok : Option String) (name : String)
    (parent : Option String) (net : Request → Response) : Option String :=
  let existing := (folder_exists tok name parent net).1
  if truthy existing then existing else (create_folder tok name parent net).1

/-- Spec side of claim C1, the requests issued by one check-folder-exists →
create-if-missing step: the single existence query, followed by the single
creation request only when the query returned no truthy id — no retries. -/
def checkThenCreateTrace (tok : Option String) (name : String)
    (parent : Option String) (net : Request → Response) : List Request :=
  (folder_exists tok name parent net).2 ++
    (if truthy (folder_exists tok name parent net).1 then []
     else (create_folder tok name parent net).2)

/-- Spec side of claim C1: the whole folder-synchronization sequence as the
claim states it — one check-then-create step for `Podcast Studio`, then,
when that produced an id, one check-then-create step for each of the four
subfolders in order, recording each id. -/
def specSetup (tok : Option String) (net : Request → Response) :
    Option FolderStructure × List Request :=
  let mainId := checkThenCreateId tok "Podcast Studio" none net
  let mainTrace := checkThenCreateTrace tok "Podcast Studio" none net
  if truthy mainId then
    let mid := mainId.getD ""
    (some { main := mid
            sub := podcastSubfolders.map
              (fun n => (n, checkThenCreateId tok n (some mid) net)) },
     mainTrace ++
       (podcastSubfolders.map
         (fun n => checkThenCreateTrace tok n (some mid) net)).flatten)
  else (none, mainTrace)

/-- An episode record as appended to `st.session_state.podcast_episodes`
(`1app.py` lines 535-549 and 572-586).  `size_kb` is the exact value of
`len(audio_bytes) / 1024`; `duration` and `timestamp` carry the strings
the handler formats before building the record. -/
structure Episode where
  title : String
  number : String
  season : String
  description : String
  notes : String
  tags : List String
  timestamp : String
  duration : String
  size_kb : Rat
  sample_rate : Nat
  audio_file_id : Option String
  notes_file_id : Option String
  local_data : List Nat
  deriving DecidableEq

/-- The tag parsing of the save handlers (`1app.py` lines 541 and 578):
`[t.strip() for t in episode_tags.split(',') if t.strip()]`. -/
def parseTags (episode_tags : String) : List String :=
  ((episode_tags.splitOn ",").map String.trim).filter (fun t => t ≠ "")

/-- `s.encode('utf-8')` as a byte list. -/
def utf8Bytes (s : String) : List Nat :=
  s.toUTF8.toList.map (fun b => b.toNat)

/-- The notes file content built by the Save-to-Google-Drive handler
(`1app.py` lines 510-524); falsy string fields are printed as `N/A`. -/
def notesContent (episode_title episode_number season_number : String)
    (tsRecord durationStr : String) (sample_rate : Nat)
    (episode_description episode_notes episode_tags : String) : String :=
  "Episode: " ++ episode_title ++ "\n" ++
  "Episode Number: " ++ (if episode_number ≠ "" then episode_number else "N/A") ++ "\n" ++
  "Season: " ++ (if season_number ≠ "" then season_number else "N/A") ++ "\n" ++
  "Recorded: " ++ tsRecord ++ "\n" ++
  "Duration: " ++ durationStr ++ "\n" ++
  "Quality: " ++ toString sample_rate ++ " Hz\n\n" ++
  "Description:\n" ++ (if episode_description ≠ "" then episode_description else "N/A") ++ "\n\n" ++
  "Show Notes:\n" ++ episode_notes ++ "\n\n" ++
  "Tags: " ++ (if episode_tags ≠ "" then episode_tags else "N/A") ++ "\n"

/-- `st.session_state.folder_structure.get(name)` against the optional
folder structure (`none` models the initial empty dict): the stored id for
`name`, which may itself be `None`, and `None` when the key is absent. -/
def fsGet (fs : Option FolderStructure) (name : String) : Option String :=
  match fs with
  | none => none
  | some s =>
    match s.sub.lookup name with
    | none => none
    | some v => v

/-- The episode record the Save-to-Google-Drive handler appends (`1app.py`
lines 535-549), as a function of the widget values, the formatted
timestamps/metrics, and the two file ids returned by the uploads. -/
def savedEpisodeRecord (episode_title episode_number season_number
    episode_description episode_notes episode_tags : String)
    (tsRecord durationStr : String) (file_size_kb : Rat) (sample_rate : Nat)
    (audio_bytes : List Nat) (audio_file_id notes_file_id : Option String) :
    Episode :=
  { title := episode_title
    number := episode_number
    season := season_number
    description := episode_description
    notes := episode_notes
    tags := parseTags episode_tags
    timestamp := tsRecord
    duration := durationStr
    size_kb := file_size_kb
    sample_rate := sample_rate
    audio_file_id := audio_file_id
    notes_file_id := notes_file_id
    local_data := audio_bytes }

/-- The Save-to-Google-Drive button handler (`1app.py` lines 480-565).
With an empty title it only shows an error.  Otherwise it runs
`setup_podcast_folders` when the session folder structure is still the
empty dict, builds the timestamped filenames, uploads the audio to the
`Audio Recordings` folder, uploads the notes file to `Episode Notes` when
notes were entered, and appends the episode record holding the returned
file ids when the audio upload produced a truthy id.  Returns the new
episode list, the (possibly updated) session folder structure, and the log
of HTTP requests issued.  `tsFile`/`tsRecord` are the two `datetime.now()`
strftime strings; `durationStr` and `file_size_kb` are the audio metrics
the handler computed earlier from the recording. -/
def saveToDriveClick (tok : Option String) (net : Request → Response)
    (folder_structure : Option FolderStructure) (episodes : List Episode)
    (episode_title episode_number season_number episode_description
      episode_notes episode_tags : String)
    (tsFile tsRecord durationStr : String) (file_size_kb : Rat)
    (sample_rate : Nat) (audio_bytes : List Nat) :
    List Episode × Option FolderStructure × List Request :=
  if episode_title = "" then (episodes, folder_structure, [])
  else
    let ensured :=
      match folder_structure with
      | some s => (some s, ([] : List Request))
      | none => setup_podcast_folders tok net
    let fs := ensured.1
    let audio_filename := episode_title ++ "_" ++ tsFile ++ ".wav"
    let notes_filename := episode_title ++ "_" ++ tsFile ++ "_notes.txt"
    let audio_folder_id := fsGet fs "Audio Recordings"
    let up := upload_file tok audio_filename audio_bytes "audio/wav"
      audio_folder_id net
    let audio_file_id := up.1
    let notesRes :=
      if episode_notes ≠ "" then
        let content := notesContent episode_title episode_number
          season_number tsRecord durationStr sample_rate
          episode_description episode_notes episode_tags
        upload_file tok notes_filename (utf8Bytes content) "text/plain"
          (fsGet fs "Episode Notes") net
      else (none, [])
    let notes_file_id := notesRes.1
    let log := ensured.2 ++ up.2 ++ notesRes.2
    if truthy audio_file_id then
      (episodes ++ [savedEpisodeRecord episode_title episode_number
          season_number episode_description episode_notes episode_tags
          tsRecord durationStr file_size_kb sample_rate audio_bytes
          audio_file_id notes_file_id], fs, log)
    else (episodes, fs, log)

/-- `needle` is a prefix of `hay` (character lists). -/
def leadsWith : List Char → List Char → Bool
  | [], _ => true
  | _ :: _, [] => false
  | a :: as, b :: bs => a == b && leadsWith as bs

/-- `needle` occurs contiguously somewhere in `hay` (character lists);
the empty needle occurs in every list. -/
def occursIn (needle : List Char) : List Char → Bool
  | [] => needle.isEmpty
  | c :: rest => leadsWith needle (c :: rest) || occursIn needle rest

/-- Python's substring test `sub in s`. -/
def strIn (sub s : String) : Bool := occursIn sub.toList s.toList

/-- The Episode Manager filter (`1app.py` lines 645-659): copy the stored
episode list, restrict it by the sync filter (`Synced to Drive` keeps
episodes with a truthy `audio_file_id`, `Local Only` those without), and,
when a search query was entered, keep the episodes whose lowercased title,
description or some tag contains the lowercased query. -/
def episodeManagerFilter (episodes : List Episode)
    (sync_filter search_query : String) : List Episode :=
  let filtered := episodes
  let filtered :=
    if sync_filter = "Synced to Drive" then
      filtered.filter (fun e => truthy e.audio_file_id)
    else if sync_filter = "Local Only" then
      filtered.filter (fun e => !truthy e.audio_file_id)
    else filtered
  if search_query ≠ "" then
    let search_lower := pyLower search_query
    filtered.filter (fun e =>
      strIn search_lower (pyLower e.title) ||
      strIn search_lower (pyLower e.description) ||
      e.tags.any (fun tag => strIn search_lower (pyLower tag)))
  else filtered

/-- Spec side of claim C6: an episode matches the sync filter when
`Synced to Drive` and its `audio_file_id` is non-empty, when `Local Only`
and it has none, or when any other filter value (`All Episodes`) is
selected. -/
def matchesSyncFilter (sync_filter : String) (e : Episode) : Bool :=
  if sync_filter = "Synced to Drive" then truthy e.audio_file_id
  else if sync_filter = "Local Only" then !truthy e.audio_file_id
  else true

/-- Spec side of claim C6: an episode matches the query when the query is
contained case-insensitively in the title, the description, or some
tag. -/
def matchesQuery (search_query : String) (e : Episode) : Bool :=
  strIn (pyLower search_query) (pyLower e.title) ||
  strIn (pyLower search_query) (pyLower e.description) ||
  e.tags.any (fun tag => strIn (pyLower search_query) (pyLower tag))

/-- Spec side of claim C6: the displayed episodes are exactly the
subsequence of stored episodes matching both the sync filter and the
query. -/
def specDisplayedEpisodes (episodes : List Episode)
    (sync_filter search_query : String) : List Episode :=
  episodes.filter (fun e =>
    matchesSyncFilter sync_filter e && matchesQuery search_query e)

end RecApp

namespace ProApp

/-- One SQLite table of the in-memory database of `app.py`: its name, its
column names, and its rows (a row as the list of its column values). -/
structure Table where
  name : String
  columns : List String
  rows : List (List String)
  deriving DecidableEq

/-- `init_database` (`app.py` lines 197-312): connect to an in-memory
SQLite database and execute the seven `CREATE TABLE IF NOT EXISTS`
statements; every table starts empty. -/
def init_database : List Table :=
  [ { name := "podcast_series"
      columns := ["id", "name", "description", "author", "category",
                  "language", "cover_image_url", "website", "email",
                  "created_at", "updated_at"]
      rows := [] },
    { name := "episodes"
      columns := ["id", "series_id", "title", "description",
                  "episode_number", "season_number", "audio_file_path",
                  "audio_duration", "transcription", "show_notes",
                  "guest_names", "publish_date", "status", "view_count",
                  "download_count", "created_at", "updated_at"]
      rows := [] },
    { name := "show_notes"
      columns := ["id", "episode_id", "content", "timestamps", "resources",
                  "created_at", "updated_at"]
      rows := [] },
    { name := "guests"
      columns := ["id", "name", "email", "website", "bio", "social_media",
                  "photo_url", "created_at"]
      rows := [] },
    { name := "episode_guests"
      columns := ["episode_id", "guest_id"]
      rows := [] },
    { name := "analytics"
      columns := ["id", "episode_id", "date", "views", "downloads",
                  "listen_time", "engagement_score", "created_at"]
      rows := [] },
    { name := "distribution_channels"
      columns := ["id", "series_id", "platform", "feed_url", "status",
                  "last_synced", "created_at"]
      rows := [] } ]

/-- A series record as appended to `st.session_state.podcast_series`
(`app.py` lines 738-748). -/
structure Series where
  id : Nat
  name : String
  author : String
  category : String
  language : String
  email : String
  website : String
  description : String
  created_at : String
  deriving DecidableEq

/-- An episode record as appended to `st.session_state.episodes`
(`app.py` lines 875-891). -/
structure ProEpisode where
  id : Nat
  series_id : Nat
  title : String
  description : String
  episode_number : Nat
  season_number : Nat
  audio_file : String
  transcription : String
  show_notes : String
  guest_names : String
  publish_date : String
  status : String
  view_count : Nat
  download_count : Nat
  created_at : String
  deriving DecidableEq

/-- A guest record as appended to `st.session_state.guests`
(`app.py` lines 1003-1012). -/
structure Guest where
  id : Nat
  name : String
  email : String
  website : String
  social_media : String
  photo_url : String
  bio : String
  created_at : String
  deriving DecidableEq

/-- The session state of the Professional variant that the claims touch:
the database connection created by `init_database` and the three
session-scoped record lists (`app.py` lines 317-327). -/
structure ProState where
  db_conn : List Table
  podcast_series : List Series
  episodes : List ProEpisode
  guests : List Guest
  deriving DecidableEq

/-- The Create Series button handler (`app.py` lines 736-753): when both
the name and the author are non-empty, append a new series whose id is one
plus the current length of the session series list; otherwise show an
error and leave the state unchanged. -/
def createSeries (st : ProState) (series_name series_author series_category
    series_language series_email series_website series_description
    created_at : String) : ProState :=
  if series_name ≠ "" ∧ series_author ≠ "" then
    { st with podcast_series := st.podcast_series ++
        [{ id := st.podcast_series.length + 1
           name := series_name
           author := series_author
           category := series_category
           language := series_language
           email := series_email
           website := series_website
           description := series_description
           created_at := created_at }] }
  else st

/-- The Save Episode button handler (`app.py` lines 806-896): the selected
series name is resolved to the id of the first session series with that
name; when the title is non-empty and the lookup succeeded, append a new
episode whose id is one plus the current length of the session episode
list, with zero view and download counts; otherwise show an error and
leave the state unchanged. -/
def saveEpisode (st : ProState) (selected_series episode_title
    episode_description : String) (episode_number season_number : Nat)
    (audio_file transcription show_notes guest_names publish_date
    status created_at : String) : ProState :=
  match st.podcast_series.find? (fun s => s.name = selected_series) with
  | none => st
  | some sr =>
    if episode_title ≠ "" then
      { st with episodes := st.episodes ++
          [{ id := st.episodes.length + 1
             series_id := sr.id
             title := episode_title
             description := episode_description
             episode_number := episode_number
             season_number := season_number
             audio_file := audio_file
             transcription := transcription
             show_notes := show_notes
             guest_names := guest_names
             publish_date := publish_date
             status := status
             view_count := 0
             download_count := 0
             created_at := created_at }] }
    else st

/-- The Add Guest button handler (`app.py` lines 1001-1016): when both the
name and the email are non-empty, append a new guest whose id is one plus
the current length of the session guest list; otherwise show an error and
leave the state unchanged. -/
def addGuest (st : ProState) (guest_name guest_email guest_website
    guest_social guest_photo_url guest_bio created_at : String) : ProState :=
  if guest_name ≠ "" ∧ guest_email ≠ "" then
    { st with guests := st.guests ++
        [{ id := st.guests.length + 1
           name := guest_name
           email := guest_email
           website := guest_website
           social_media := guest_social
           photo_url := guest_photo_url
           bio := guest_bio
           created_at := created_at }] }
  else st

/-- The Dashboard series delete button (`app.py` lines 676-679):
`st.session_state.podcast_series.remove(series)` removes the first list
entry equal to the displayed series. -/
def deleteSeries (st : ProState) (series : Series) : ProState :=
  { st with podcast_series := st.podcast_series.erase series }

/-- The episode delete button (`app.py` lines 931-933). -/
def deleteEpisode (st : ProState) (ep : ProEpisode) : ProState :=
  { st with episodes := st.episodes.erase ep }

/-- The guest delete button (`app.py` lines 1038-1040). -/
def deleteGuest (st : ProState) (g : Guest) : ProState :=
  { st with guests := st.guests.erase g }

/-- The Manage Episodes search (`app.py` lines 905-910): with a non-empty
search term, keep the episodes whose lowercased title contains the
lowercased term; otherwise show all episodes. -/
def manageEpisodesSearch (episodes : List ProEpisode)
    (search_term : String) : List ProEpisode :=
  if search_term ≠ "" then
    episodes.filter (fun ep => RecApp.strIn (RecApp.pyLower search_term) (RecApp.pyLower ep.title))
  else episodes

/-- The update applied to each episode by the bulk handlers
(`ep['status'] = new_status`, `app.py` lines 973-974 and 1153-1154). -/
def withStatus (new_status : String) (ep : ProEpisode) : ProEpisode :=
  { ep with status := new_status }

/-- The Bulk Status Update button handler (`app.py` lines 972-975): set
the status of every session episode to the chosen value. -/
def bulkStatusUpdate (st : ProState) (new_status : String) : ProState :=
  { st with episodes := st.episodes.map (withStatus new_status) }

/-- The Publish All Episodes button handler (`app.py` lines 1152-1155):
set the status of every session episode to `published`. -/
def publishAllEpisodes (st : ProState) : ProState :=
  { st with episodes := st.episodes.map (withStatus "published") }

/-- `GoogleDriveAPI.get_access_token` of the Professional variant
(`app.py` lines 352-358): the stored service-account JSON is an arbitrary
parsed object (no field is validated); when it is truthy (present and
non-empty) the method returns the fixed string `dummy_token_for_demo`,
otherwise `None`.  No JWT is built and no request is issued. -/
def get_access_token (service_account_info : Option (List (String × String))) :
    Option String :=
  if (match service_account_info with
      | some d => !d.isEmpty
      | none => false) then
    some "dummy_token_for_demo"
  else none

/-- The transcript object returned by the Whisper SDK call. -/
structure Transcript where
  text : String
  deriving DecidableEq

/-- `transcribe_audio` (`app.py` lines 363-375): call the OpenAI Whisper
SDK on the uploaded file and return the transcript's `text` field; any
exception raised inside is caught, an error is displayed, and `None` is
returned.  `sdk` is the SDK call, given the api key and the file path. -/
def transcribe_audio (file_path api_key : String)
    (sdk : String → String → Except String Transcript) : Option String :=
  match sdk api_key file_path with
  | .ok transcript => some transcript.text
  | .error _ => none

/-- One message of a chat-completion request. -/
structure ChatMessage where
  role : String
  content : String
  deriving DecidableEq

/-- The message of one chat-completion choice. -/
structure ChoiceMessage where
  content : String
  deriving DecidableEq

/-- One choice of a chat-completion response. -/
structure ChatChoice where
  message : ChoiceMessage
  deriving DecidableEq

/-- A chat-completion response: its list of choices. -/
structure ChatResponse where
  choices : List ChatChoice
  deriving DecidableEq

/-- `generate_show_notes` (`app.py` lines 377-395): build the prompt from
the title and the first 4000 characters of the transcription, call the
chat-completion SDK with the system and user messages, and return the
first choice's message content; any exception raised inside (including the
index error on an empty choices list) is caught, an error is displayed,
and `None` is returned. -/
def generate_show_notes (title transcription api_key : String)
    (sdk : String → List ChatMessage → Except String ChatResponse) :
    Option String :=
  let prompt := "Generate professional podcast show notes for an episode titled '"
    ++ title ++ "' based on this transcription: " ++ transcription.take 4000
  match sdk api_key
      [{ role := "system", content := "You are a professional podcast producer." },
       { role := "user", content := prompt }] with
  | .error _ => none
  | .ok response =>
    match response.choices with
    | [] => none
    | c :: _ => some c.message.content

end ProApp

namespace RecApp

/-- Spec side of claim C7: the single multipart request `upload_file`
issues — POST to the `uploadType=multipart` endpoint, body holding the
JSON metadata part (file name, plus the parent folder id when given) and
the raw binary payload part. -/
def uploadRequest (tok file_name : String) (file_data : List Nat)
    (mime_type : String) (folder_id : Option String) : Request :=
  { method := .post
    url := "https://www.googleapis.com/upload/drive/v3/files?uploadType=multipart"
    bearer := tok
    params := []
    body := .multipart file_name
      (if truthy folder_id then [folder_id.getD ""] else [])
      file_name file_data mime_type }

/-- A network oracle whose every response is a 200 with file id `fid` and
an empty file list (used to instantiate the universally quantified
theorems at one concrete point). -/
def netOk : Request → Response :=
  fun _ => { status := 200, files := [], id := "fid" }

/-- A concrete folder structure, as `setup_podcast_folders` stores one. -/
def demoFolders : FolderStructure :=
  { main := "m"
    sub := [("Audio Recordings", some "ar"), ("Episode Notes", some "en"),
            ("Transcripts", some "tr"), ("Drafts", some "dr")] }

end RecApp

namespace ProApp

/-- A four-step UI run from the empty session: create two series, delete
the first through the dashboard, then create a third. -/
def collisionDemo : ProState :=
  createSeries
    (deleteSeries
      (createSeries (createSeries ⟨[], [], [], []⟩ "a" "x" "" "" "" "" "" "")
        "b" "y" "" "" "" "" "" "")
      ⟨1, "a", "x", "", "", "", "", "", ""⟩)
    "c" "z" "" "" "" "" "" ""

end ProApp

/-- A non-empty string is truthy. -/
theorem truthy_some_of_ne {t : String} (h : t ≠ "") :
    RecApp.truthy (some t) = true := by
  simp [RecApp.truthy, h]

/-- C8: every network method of `GoogleDriveAPI` is guarded by the access
token: with `access_token = None`, `create_folder`, `folder_exists` and
`upload_file` return `None` and `list_files` returns the empty list, and
none of them issues any HTTP request (the request log is empty). -/
theorem C8_token_guard (folder_name file_name mime_type : String)
    (parent_id folder_id : Option String) (file_data : List Nat)
    (net : RecApp.Request → RecApp.Response) :
    RecApp.create_folder none folder_name parent_id net = (none, []) ∧
    RecApp.folder_exists none folder_name parent_id net = (none, []) ∧
    RecApp.upload_file none file_name file_data mime_type folder_id net =
      (none, []) ∧
    RecApp.list_files none folder_id net = ([], []) :=
  ⟨rfl, rfl, rfl, rfl⟩

/-- C5: `transcribe_audio` and `generate_show_notes` are pass-through
wrappers: when the SDK call returns, `transcribe_audio` returns the
transcript's `text` field and `generate_show_notes` the first choice's
message content; when the call raises (or the choices list is empty, an
index error), the function returns `None` instead of propagating the
exception. -/
theorem C5_passthrough_wrappers (file_path api_key title transcription
    err : String) (t : ProApp.Transcript) (c : ProApp.ChatChoice)
    (cs : List ProApp.ChatChoice) :
    ProApp.transcribe_audio file_path api_key (fun _ _ => .ok t) =
      some t.text ∧
    ProApp.transcribe_audio file_path api_key (fun _ _ => .error err) =
      none ∧
    ProApp.generate_show_notes title transcription api_key
      (fun _ _ => .ok { choices := c :: cs }) = some c.message.content ∧
    ProApp.generate_show_notes title transcription api_key
      (fun _ _ => .error err) = none ∧
    ProApp.generate_show_notes title transcription api_key
      (fun _ _ => .ok { choices := [] }) = none :=
  ⟨rfl, rfl, rfl, rfl, rfl⟩

/-- C4: with a set access token, each of `folder_exists`, `create_folder`,
`upload_file` and `list_files` issues exactly one HTTP request (the log is
a one-element list) and never retries: the result is the 200-branch parse
of that single response — the created/uploaded file id, the first matching
folder id (`None` on an empty match list), or the files list — and `None`
(the empty list for `list_files`) on any non-200 status; `list_files`
requests no further page. -/
theorem C4_single_request_per_call (t : String) (folder_name file_name
    mime_type : String) (parent_id folder_id : Option String)
    (file_data : List Nat) (net : RecApp.Request → RecApp.Response)
    (ht : t ≠ "") :
    (∃ req, RecApp.create_folder (some t) folder_name parent_id net =
      ((if (net req).status == 200 then some (net req).id else none),
       [req])) ∧
    (∃ req, RecApp.folder_exists (some t) folder_name parent_id net =
      ((if (net req).status == 200 then
          ((net req).files.head?).map (fun f => f.id)
        else none), [req])) ∧
    (∃ req, RecApp.upload_file (some t) file_name file_data mime_type
        folder_id net =
      ((if (net req).status == 200 then some (net req).id else none),
       [req])) ∧
    (∃ req, RecApp.list_files (some t) folder_id net =
      ((if (net req).status == 200 then (net req).files else []),
       [req])) := by
  have htr := truthy_some_of_ne ht
  simp only [RecApp.create_folder, RecApp.folder_exists,
    RecApp.upload_file, RecApp.list_files, htr, Bool.not_true,
    Bool.false_eq_true, if_false]
  exact ⟨⟨_, rfl⟩, ⟨_, rfl⟩, ⟨_, rfl⟩, ⟨_, rfl⟩⟩

/-- C4 witness: the theorem instantiated at a concrete token, folder name
and network oracle. -/
theorem C4_witness :
    ∃ req, RecApp.create_folder (some "tok") "Podcast Studio" none
        RecApp.netOk =
      ((if (RecApp.netOk req).status == 200 then some (RecApp.netOk req).id
        else none), [req]) :=
  (C4_single_request_per_call "tok" "Podcast Studio" "f.wav" "audio/wav"
    none none [] RecApp.netOk (by decide)).1

/-- C7: for every file name, byte payload, MIME type and optional folder
id, `upload_file` with a set token issues exactly the single multipart
request `uploadRequest` — a POST to the `uploadType=multipart` endpoint
whose body carries the JSON metadata part (the file name, plus the parent
folder id when given) and the raw binary payload part — and returns the
`id` field of a 200 response, `None` otherwise. -/
theorem C7_multipart_upload (t file_name mime_type : String)
    (file_data : List Nat) (folder_id : Option String)
    (net : RecApp.Request → RecApp.Response) (ht : t ≠ "") :
    RecApp.upload_file (some t) file_name file_data mime_type folder_id
        net =
      ((if (net (RecApp.uploadRequest t file_name file_data mime_type
            folder_id)).status == 200 then
          some (net (RecApp.uploadRequest t file_name file_data mime_type
            folder_id)).id
        else none),
       [RecApp.uploadRequest t file_name file_data mime_type folder_id]) ∧
    (RecApp.uploadRequest t file_name file_data mime_type folder_id).url =
      "https://www.googleapis.com/upload/drive/v3/files?uploadType=multipart" ∧
    (RecApp.uploadRequest t file_name file_data mime_type
        folder_id).method = .post ∧
    (RecApp.uploadRequest t file_name file_data mime_type
        folder_id).body =
      .multipart file_name
        (if RecApp.truthy folder_id then [folder_id.getD ""] else [])
        file_name file_data mime_type := by
  have htr := truthy_some_of_ne ht
  refine ⟨?_, rfl, rfl, rfl⟩
  simp only [RecApp.upload_file, RecApp.uploadRequest, htr, Bool.not_true,
    Bool.false_eq_true, if_false]
  rfl

/-- C7 witness: the theorem instantiated at a concrete token, file and
network oracle. -/
theorem C7_witness :
    RecApp.upload_file (some "tok") "e.wav" [0, 1] "audio/wav" (some "ar")
        RecApp.netOk =
      ((if (RecApp.netOk (RecApp.uploadRequest "tok" "e.wav" [0, 1]
            "audio/wav" (some "ar"))).status == 200 then
          some (RecApp.netOk (RecApp.uploadRequest "tok" "e.wav" [0, 1]
            "audio/wav" (some "ar"))).id
        else none),
       [RecApp.uploadRequest "tok" "e.wav" [0, 1] "audio/wav"
          (some "ar")]) :=
  (C7_multipart_upload "tok" "e.wav" "audio/wav" [0, 1] (some "ar")
    RecApp.netOk (by decide)).1

/-- C3 counterexample: in the Professional variant (`app.py` lines
352-358), `get_access_token` performs no JWT construction or token
exchange at all — it is a pure function of the stored JSON that returns
the fixed string `dummy_token_for_demo` for any non-empty service-account
object (here two different ones), contradicting the claim that in every
variant the returned token is the `access_token` field of a 200
token-endpoint response. -/
theorem C3_counterexample :
    ProApp.get_access_token (some [("project_id", "demo")]) =
      some "dummy_token_for_demo" ∧
    ProApp.get_access_token (some [("client_email", "a@b.c")]) =
      some "dummy_token_for_demo" ∧
    ProApp.get_access_token none = none :=
  ⟨rfl, rfl, rfl⟩

/-- C3 (amended): in the recording variant, `get_access_token` performs
the standard OAuth2 service-account flow exactly as the claim states it
(JWT with `iss = client_email`, the drive.file scope, the token-endpoint
audience, `iat = now`, `exp = now + 3600`, signed with the private key,
POSTed with the jwt-bearer grant type, returning the `access_token` of a
200 response and `None` on any non-200 response or exception); in the
Professional variant, `get_access_token` is a stub returning the fixed
string `dummy_token_for_demo` whenever a non-empty service-account object
is stored and `None` otherwise. -/
theorem C3_token_flow_by_variant (svc : RecApp.ServiceAccount) (now : Nat)
    (sign : RecApp.JwtClaims → String → Except String String)
    (post : RecApp.TokenRequest → Except String RecApp.TokenResponse)
    (d : List (String × String)) (hd : d ≠ []) :
    RecApp.get_access_token svc now sign post =
      RecApp.specServiceAccountToken svc now sign post ∧
    ProApp.get_access_token (some d) = some "dummy_token_for_demo" ∧
    ProApp.get_access_token none = none := by
  refine ⟨rfl, ?_, rfl⟩
  simp [ProApp.get_access_token, hd]

/-- C3 witness: the amended theorem instantiated at a concrete service
account, clock, signer, token endpoint and stored JSON object. -/
theorem C3_witness :
    RecApp.get_access_token ⟨"svc@p.iam", "k", "p"⟩ 1000 (fun _ k => .ok k)
        (fun _ => .ok ⟨200, "tok"⟩) =
      RecApp.specServiceAccountToken ⟨"svc@p.iam", "k", "p"⟩ 1000
        (fun _ k => .ok k) (fun _ => .ok ⟨200, "tok"⟩) ∧
    ProApp.get_access_token (some [("project_id", "demo")]) =
      some "dummy_token_for_demo" ∧
    ProApp.get_access_token none = none :=
  C3_token_flow_by_variant ⟨"svc@p.iam", "k", "p"⟩ 1000 (fun _ k => .ok k)
    (fun _ => .ok ⟨200, "tok"⟩) [("project_id", "demo")] (by decide)

/-- C2 counterexample: the Create Series handler, run on the startup state
(database freshly created by `init_database`, empty session lists), leaves
every database table untouched, produces the same new record regardless of
the database contents (so it neither writes nor reads the
`podcast_series` table), and appends the record to the session list
instead. -/
theorem C2_counterexample :
    (ProApp.createSeries ⟨ProApp.init_database, [], [], []⟩ "My Show" "Me"
        "Technology" "English" "" "" "" "t0").db_conn =
      ProApp.init_database ∧
    (ProApp.createSeries ⟨[], [], [], []⟩ "My Show" "Me" "Technology"
        "English" "" "" "" "t0").podcast_series =
      (ProApp.createSeries ⟨ProApp.init_database, [], [], []⟩ "My Show" "Me"
        "Technology" "English" "" "" "" "t0").podcast_series ∧
    (ProApp.createSeries ⟨ProApp.init_database, [], [], []⟩ "My Show" "Me"
        "Technology" "English" "" "" "" "t0").podcast_series.length = 1 :=
  ⟨rfl, rfl, rfl⟩

/-- C2 (amended): in the Professional variant, series, episode and guest
records created or deleted through the UI are kept only in the in-process
session-state lists; `init_database` creates the
`podcast_series`/`episodes`/`guests` (and four further) tables at startup,
but no create or delete handler reads or writes them — every handler
commutes with any replacement of the database component and leaves it
unchanged. -/
theorem C2_session_only_persistence (st : ProApp.ProState)
    (d : List ProApp.Table) (n a c l e w de ca : String)
    (sel ti ed : String) (en sn : Nat)
    (af tr sh gn pd stt cat : String)
    (g1 g2 g3 g4 g5 g6 g7 : String) (sr : ProApp.Series)
    (ep : ProApp.ProEpisode) (gu : ProApp.Guest) :
    ProApp.createSeries { st with db_conn := d } n a c l e w de ca =
      { ProApp.createSeries st n a c l e w de ca with db_conn := d } ∧
    ProApp.saveEpisode { st with db_conn := d } sel ti ed en sn af tr sh gn
        pd stt cat =
      { ProApp.saveEpisode st sel ti ed en sn af tr sh gn pd stt cat with
          db_conn := d } ∧
    ProApp.addGuest { st with db_conn := d } g1 g2 g3 g4 g5 g6 g7 =
      { ProApp.addGuest st g1 g2 g3 g4 g5 g6 g7 with db_conn := d } ∧
    ProApp.deleteSeries { st with db_conn := d } sr =
      { ProApp.deleteSeries st sr with db_conn := d } ∧
    ProApp.deleteEpisode { st with db_conn := d } ep =
      { ProApp.deleteEpisode st ep with db_conn := d } ∧
    ProApp.deleteGuest { st with db_conn := d } gu =
      { ProApp.deleteGuest st gu with db_conn := d } ∧
    (ProApp.createSeries st n a c l e w de ca).db_conn = st.db_conn ∧
    (ProApp.saveEpisode st sel ti ed en sn af tr sh gn pd stt
        cat).db_conn = st.db_conn ∧
    (ProApp.addGuest st g1 g2 g3 g4 g5 g6 g7).db_conn = st.db_conn ∧
    (ProApp.deleteSeries st sr).db_conn = st.db_conn ∧
    ProApp.init_database.map (fun tb => tb.name) =
      ["podcast_series", "episodes", "show_notes", "guests",
       "episode_guests", "analytics", "distribution_channels"] := by
  refine ⟨?_, ?_, ?_, rfl, rfl, rfl, ?_, ?_, ?_, rfl, rfl⟩
  · unfold ProApp.createSeries
    split <;> rfl
  · obtain ⟨db, ps, es, gs⟩ := st
    simp only [ProApp.saveEpisode]
    cases hf : ps.find? (fun s => decide (s.name = sel)) with
    | none => rfl
    | some sr0 => split <;> first | rfl | (split <;> rfl)
  · unfold ProApp.addGuest
    split <;> rfl
  · unfold ProApp.createSeries
    split <;> rfl
  · unfold ProApp.saveEpisode
    cases hf : st.podcast_series.find? (fun s => decide (s.name = sel)) with
    | none => rfl
    | some sr0 => split <;> first | rfl | (split <;> rfl)
  · unfold ProApp.addGuest
    split <;> rfl

/-- C10: the bulk status operations modify only the `status` field:
`Update All Episodes` maps `withStatus new_status` over the stored episode
list (same length, same order) and `Publish All Episodes` is the same
operation with `published`; `withStatus` changes `status` to the chosen
value and leaves every other field of the episode unchanged, and both
handlers leave the series list, the guest list and the database
unchanged. -/
theorem C10_bulk_status_frame (st : ProApp.ProState) (new_status : String)
    (ep : ProApp.ProEpisode) :
    (ProApp.bulkStatusUpdate st new_status).episodes =
      st.episodes.map (ProApp.withStatus new_status) ∧
    (ProApp.bulkStatusUpdate st new_status).episodes.length =
      st.episodes.length ∧
    (ProApp.bulkStatusUpdate st new_status).podcast_series =
      st.podcast_series ∧
    (ProApp.bulkStatusUpdate st new_status).guests = st.guests ∧
    (ProApp.bulkStatusUpdate st new_status).db_conn = st.db_conn ∧
    ProApp.publishAllEpisodes st = ProApp.bulkStatusUpdate st "published" ∧
    (ProApp.withStatus new_status ep).status = new_status ∧
    (ProApp.withStatus new_status ep).id = ep.id ∧
    (ProApp.withStatus new_status ep).series_id = ep.series_id ∧
    (ProApp.withStatus new_status ep).title = ep.title ∧
    (ProApp.withStatus new_status ep).description = ep.description ∧
    (ProApp.withStatus new_status ep).episode_number = ep.episode_number ∧
    (ProApp.withStatus new_status ep).season_number = ep.season_number ∧
    (ProApp.withStatus new_status ep).audio_file = ep.audio_file ∧
    (ProApp.withStatus new_status ep).transcription = ep.transcription ∧
    (ProApp.withStatus new_status ep).show_notes = ep.show_notes ∧
    (ProApp.withStatus new_status ep).guest_names = ep.guest_names ∧
    (ProApp.withStatus new_status ep).publish_date = ep.publish_date ∧
    (ProApp.withStatus new_status ep).view_count = ep.view_count ∧
    (ProApp.withStatus new_status ep).download_count = ep.download_count ∧
    (ProApp.withStatus new_status ep).created_at = ep.created_at := by
  refine ⟨rfl, ?_, rfl, rfl, rfl, rfl, rfl, rfl, rfl, rfl, rfl, rfl, rfl,
    rfl, rfl, rfl, rfl, rfl, rfl, rfl, rfl⟩
  simp [ProApp.bulkStatusUpdate]

/-- C9: every create handler of the Professional variant assigns the new
record the id one plus the current length of the corresponding session
list and appends it at the end; a run of creates alone keeps the series
ids equal to `1..n` (hence free of duplicates), while the concrete
create–create–delete–create run `collisionDemo` ends with two records
both carrying id 2. -/
theorem C9_sequential_id_assignment (st : ProApp.ProState)
    (n a c l e w de ca sel ti ed : String) (en sn : Nat)
    (af tr sh gn pd stt cat g1 g2 g3 g4 g5 g6 g7 : String)
    (sr : ProApp.Series) (hn : n ≠ "") (ha : a ≠ "")
    (hf : st.podcast_series.find? (fun s => s.name = sel) = some sr)
    (ht : ti ≠ "") (hg : g1 ≠ "") (he : g2 ≠ "")
    (hinv : st.podcast_series.map (fun s => s.id) =
      List.range' 1 st.podcast_series.length) :
    ProApp.createSeries st n a c l e w de ca =
      { st with podcast_series := st.podcast_series ++
          [⟨st.podcast_series.length + 1, n, a, c, l, e, w, de, ca⟩] } ∧
    ProApp.saveEpisode st sel ti ed en sn af tr sh gn pd stt cat =
      { st with episodes := st.episodes ++
          [⟨st.episodes.length + 1, sr.id, ti, ed, en, sn, af, tr, sh, gn,
            pd, stt, 0, 0, cat⟩] } ∧
    ProApp.addGuest st g1 g2 g3 g4 g5 g6 g7 =
      { st with guests := st.guests ++
          [⟨st.guests.length + 1, g1, g2, g3, g4, g5, g6, g7⟩] } ∧
    (ProApp.createSeries st n a c l e w de ca).podcast_series.map
        (fun s => s.id) =
      List.range' 1
        (ProApp.createSeries st n a c l e w de ca).podcast_series.length ∧
    ((ProApp.createSeries st n a c l e w de ca).podcast_series.map
        (fun s => s.id)).Nodup ∧
    ProApp.collisionDemo.podcast_series.map (fun s => s.id) = [2, 2] ∧
    ¬ (ProApp.collisionDemo.podcast_series.map (fun s => s.id)).Nodup := by
  have hcreate : ProApp.createSeries st n a c l e w de ca =
      { st with podcast_series := st.podcast_series ++
          [⟨st.podcast_series.length + 1, n, a, c, l, e, w, de, ca⟩] } := by
    unfold ProApp.createSeries
    rw [if_pos ⟨hn, ha⟩]
  have hids : (ProApp.createSeries st n a c l e w de ca).podcast_series.map
      (fun s => s.id) =
      List.range' 1
        (ProApp.createSeries st n a c l e w de ca).podcast_series.length := by
    rw [hcreate]
    simp [hinv, List.range'_concat, Nat.add_comm]
  refine ⟨hcreate, ?_, ?_, hids, ?_, by decide, by decide⟩
  · simp only [ProApp.saveEpisode, hf]
    rw [if_pos ht]
  · unfold ProApp.addGuest
    rw [if_pos ⟨hg, he⟩]
  · rw [hids]
    exact List.nodup_range' _ _ 1 (by decide)

/-- C9 witness: the theorem instantiated at a session holding one series
named `s` (so the episode lookup succeeds) and non-empty create inputs. -/
theorem C9_witness :
    ((ProApp.createSeries
        ⟨[], [⟨1, "s", "a", "", "", "", "", "", ""⟩], [], []⟩
        "n" "b" "" "" "" "" "" "").podcast_series.map
          (fun s => s.id)).Nodup :=
  (C9_sequential_id_assignment
    ⟨[], [⟨1, "s", "a", "", "", "", "", "", ""⟩], [], []⟩
    "n" "b" "" "" "" "" "" "" "s" "t" "" 1 1 "" "" "" "" "" "" "" "g" "e"
    "" "" "" "" "" ⟨1, "s", "a", "", "", "", "", "", ""⟩
    (by decide) (by decide) (by decide) (by decide) (by decide) (by decide)
    (by decide)).2.2.2.2.1

/-- The empty needle occurs in every character list. -/
theorem occursIn_nil_needle (l : List Char) : RecApp.occursIn [] l = true := by
  cases l <;> simp [RecApp.occursIn, RecApp.leadsWith]

/-- The empty string is a Python-substring of every string. -/
theorem strIn_empty_needle (s : String) : RecApp.strIn "" s = true :=
  occursIn_nil_needle _

/-- Every episode matches the empty search query. -/
theorem matchesQuery_empty_query (e : RecApp.Episode) :
    RecApp.matchesQuery "" e = true := by
  have h : RecApp.pyLower "" = "" := rfl
  simp [RecApp.matchesQuery, h, strIn_empty_needle]

/-- C6: the Episode Manager of the recording variant displays exactly the
subsequence (in stored order) of episodes that match the sync filter
(`Synced to Drive` keeps those with a non-empty `audio_file_id`,
`Local Only` those without, anything else keeps all) and contain the
query case-insensitively in the title, the description or some tag; the
Professional variant's episode search keeps exactly the episodes whose
title contains the search term case-insensitively. -/
theorem C6_filter_search_semantics (episodes : List RecApp.Episode)
    (sync_filter search_query search_term : String)
    (proEpisodes : List ProApp.ProEpisode) :
    RecApp.episodeManagerFilter episodes sync_filter search_query =
      RecApp.specDisplayedEpisodes episodes sync_filter search_query ∧
    (RecApp.episodeManagerFilter episodes sync_filter
        search_query).Sublist episodes ∧
    ProApp.manageEpisodesSearch proEpisodes search_term =
      proEpisodes.filter (fun ep =>
        RecApp.strIn (RecApp.pyLower search_term)
          (RecApp.pyLower ep.title)) := by
  have hmain : RecApp.episodeManagerFilter episodes sync_filter
      search_query =
      RecApp.specDisplayedEpisodes episodes sync_filter search_query := by
    unfold RecApp.episodeManagerFilter RecApp.specDisplayedEpisodes
    by_cases hq : search_query = ""
    · subst hq
      simp only [ne_eq, not_true_eq_false, if_false,
        matchesQuery_empty_query, Bool.and_true]
      by_cases hs1 : sync_filter = "Synced to Drive"
      · simp [RecApp.matchesSyncFilter, hs1]
      · by_cases hs2 : sync_filter = "Local Only"
        · simp [RecApp.matchesSyncFilter, hs1, hs2]
        · simp [RecApp.matchesSyncFilter, hs1, hs2]
    · simp only [ne_eq, hq, not_false_eq_true, if_true]
      by_cases hs1 : sync_filter = "Synced to Drive"
      · rw [if_pos hs1, List.filter_filter]
        simp [RecApp.matchesSyncFilter, RecApp.matchesQuery, hs1,
          Bool.and_comm]
      · by_cases hs2 : sync_filter = "Local Only"
        · rw [if_neg hs1, if_pos hs2, List.filter_filter]
          simp [RecApp.matchesSyncFilter, RecApp.matchesQuery, hs1, hs2,
            Bool.and_comm]
        · rw [if_neg hs1, if_neg hs2]
          simp [RecApp.matchesSyncFilter, RecApp.matchesQuery, hs1, hs2]
  refine ⟨hmain, ?_, ?_⟩
  · rw [hmain]
    exact List.filter_sublist episodes
  · unfold ProApp.manageEpisodesSearch
    by_cases hterm : search_term = ""
    · subst hterm
      have h : RecApp.pyLower "" = "" := rfl
      simp [h, strIn_empty_needle]
    · simp [hterm]

/-- One iteration of the subfolder loop appends exactly one
check-then-create segment: the name/id pair and the corresponding
requests. -/
theorem subfolderStep_spec (tok : Option String)
    (net : RecApp.Request → RecApp.Response) (mid : String)
    (acc : List (String × Option String) × List RecApp.Request)
    (name : String) :
    RecApp.subfolderStep tok net mid acc name =
      (acc.1 ++ [(name, RecApp.checkThenCreateId tok name (some mid) net)],
       acc.2 ++ RecApp.checkThenCreateTrace tok name (some mid) net) := by
  unfold RecApp.subfolderStep RecApp.checkThenCreateId
    RecApp.checkThenCreateTrace
  cases h : RecApp.truthy (RecApp.folder_exists tok name (some mid) net).1
  · simp [h]
  · simp [h]

/-- The whole subfolder loop is the concatenation of one check-then-create
segment per subfolder name, in order. -/
theorem subfolderLoop_spec (tok : Option String)
    (net : RecApp.Request → RecApp.Response) (mid : String)
    (names : List String) :
    ∀ (subs : List (String × Option String)) (log : List RecApp.Request),
      names.foldl (RecApp.subfolderStep tok net mid) (subs, log) =
        (subs ++ names.map
          (fun n => (n, RecApp.checkThenCreateId tok n (some mid) net)),
         log ++ (names.map
           (fun n => RecApp.checkThenCreateTrace tok n (some mid)
             net)).flatten) := by
  induction names with
  | nil => intro subs log; simp
  | cons n ns ih =>
    intro subs log
    rw [List.foldl_cons, subfolderStep_spec, ih]
    simp [List.append_assoc]

/-- `setup_podcast_folders` equals its claim-side description `specSetup`:
one check-then-create segment for the main folder, then one per subfolder
when the main folder produced an id. -/
theorem setup_eq_specSetup (tok : Option String)
    (net : RecApp.Request → RecApp.Response) :
    RecApp.setup_podcast_folders tok net = RecApp.specSetup tok net := by
  cases h1 : RecApp.truthy
      (RecApp.folder_exists tok "Podcast Studio" none net).1 with
  | true =>
    have hid : RecApp.checkThenCreateId tok "Podcast Studio" none net =
        (RecApp.folder_exists tok "Podcast Studio" none net).1 := by
      unfold RecApp.checkThenCreateId
      rw [if_pos h1]
    have htr : RecApp.checkThenCreateTrace tok "Podcast Studio" none net =
        (RecApp.folder_exists tok "Podcast Studio" none net).2 := by
      unfold RecApp.checkThenCreateTrace
      rw [if_pos h1]
      simp
    unfold RecApp.setup_podcast_folders RecApp.specSetup
    rw [hid, htr]
    simp only [h1, if_true]
    rw [subfolderLoop_spec]
    simp
  | false =>
    have hid : RecApp.checkThenCreateId tok "Podcast Studio" none net =
        (RecApp.create_folder tok "Podcast Studio" none net).1 := by
      unfold RecApp.checkThenCreateId
      rw [if_neg (by simp [h1])]
    have htr : RecApp.checkThenCreateTrace tok "Podcast Studio" none net =
        (RecApp.folder_exists tok "Podcast Studio" none net).2 ++
          (RecApp.create_folder tok "Podcast Studio" none net).2 := by
      unfold RecApp.checkThenCreateTrace
      rw [if_neg (by simp [h1])]
    unfold RecApp.setup_podcast_folders RecApp.specSetup
    rw [hid, htr]
    simp only [h1, Bool.false_eq_true, if_false]
    cases h2 : RecApp.truthy
        (RecApp.create_folder tok "Podcast Studio" none net).1 with
    | true =>
      simp only [h2, if_true]
      rw [subfolderLoop_spec]
      simp
    | false =>
      simp only [h2, Bool.false_eq_true, if_false]

/-- C1: the Google Drive synchronization is the linear sequence
check-folder-exists → create-if-missing → upload → record-file-id.
`setup_podcast_folders` equals the claim-side `specSetup` (one existence
query per folder, one creation request only when the query returned no id,
for `Podcast Studio` and then each of the four subfolders — no step
retried); with the folder structure already set, the Save-to-Google-Drive
handler issues exactly the single audio upload (plus the single notes
upload when notes were entered) and, when the audio upload returned a
truthy id, appends the episode record holding the returned
`audio_file_id`/`notes_file_id`. -/
theorem C1_drive_sync_linear_flow (tok : Option String)
    (net : RecApp.Request → RecApp.Response) (s : RecApp.FolderStructure)
    (episodes : List RecApp.Episode)
    (episode_title episode_number season_number episode_description
      episode_notes episode_tags tsFile tsRecord durationStr : String)
    (file_size_kb : Rat) (sample_rate : Nat) (audio_bytes : List Nat)
    (aid nid : Option String) (htitle : episode_title ≠ "") :
    RecApp.setup_podcast_folders tok net = RecApp.specSetup tok net ∧
    RecApp.saveToDriveClick tok net (some s) episodes episode_title
        episode_number season_number episode_description episode_notes
        episode_tags tsFile tsRecord durationStr file_size_kb sample_rate
        audio_bytes =
      (let up := RecApp.upload_file tok
         (episode_title ++ "_" ++ tsFile ++ ".wav") audio_bytes
         "audio/wav" (RecApp.fsGet (some s) "Audio Recordings") net
       let nup :=
         if episode_notes ≠ "" then
           RecApp.upload_file tok
             (episode_title ++ "_" ++ tsFile ++ "_notes.txt")
             (RecApp.utf8Bytes (RecApp.notesContent episode_title
               episode_number season_number tsRecord durationStr
               sample_rate episode_description episode_notes
               episode_tags))
             "text/plain" (RecApp.fsGet (some s) "Episode Notes") net
         else (none, [])
       ((if RecApp.truthy up.1 then
           episodes ++ [RecApp.savedEpisodeRecord episode_title
             episode_number season_number episode_description
             episode_notes episode_tags tsRecord durationStr file_size_kb
             sample_rate audio_bytes up.1 nup.1]
         else episodes),
        some s, up.2 ++ nup.2)) ∧
    (RecApp.savedEpisodeRecord episode_title episode_number season_number
        episode_description episode_notes episode_tags tsRecord
        durationStr file_size_kb sample_rate audio_bytes aid
        nid).audio_file_id = aid ∧
    (RecApp.savedEpisodeRecord episode_title episode_number season_number
        episode_description episode_notes episode_tags tsRecord
        durationStr file_size_kb sample_rate audio_bytes aid
        nid).notes_file_id = nid := by
  refine ⟨setup_eq_specSetup tok net, ?_, rfl, rfl⟩
  unfold RecApp.saveToDriveClick
  rw [if_neg htitle]
  simp only [List.nil_append]
  split <;> simp [*]

/-- C1 witness: the save handler applied at a concrete token, network
oracle, folder structure and episode input leaves the stored folder
structure unchanged. -/
theorem C1_witness :
    (RecApp.saveToDriveClick (some "tk") RecApp.netOk
        (some RecApp.demoFolders) [] "T" "" "" "" "" "" "ts" "tr" "1.0s"
        1 24000 [0]).2.1 = some RecApp.demoFolders :=
  congrArg (fun r => r.2.1)
    ((C1_drive_sync_linear_flow (some "tk") RecApp.netOk
      RecApp.demoFolders [] "T" "" "" "" "" "" "ts" "tr" "1.0s" 1 24000
      [0] none none (by decide)).2.1)
